import Mathlib

/-!
# Verification of the lasso_breast_cancer pipeline

A shallow embedding, over exact rationals, of the notebook pipeline of this
repository: load the breast-cancer table, split train/test with seed 123,
grid-search the regularization strength `C` of an L1-penalized logistic
regression with repeated 10×3 k-fold cross-validation (seed 321) over
`np.arange(0.01, 1, 0.01)` scored by negative mean absolute error, fit the
full-feature model, select the features with exactly-nonzero fitted
coefficient, refit on the selected columns at the chosen strength, and
report train/test accuracy.

Machine floats are modelled as exact rationals (each IEEE-754 double is a
rational and every comparison in the source is an exact one).  The external
library routines enter the embedding as explicit functional parameters
(`LibraryEnv`): the PRNG permutation behind `train_test_split` and the fold
indices of `RepeatedKFold` are deterministic functions of the
`random_state` values the source fixes (123 and 321), whereas the liblinear
coefficient solver is not pinned down by those seeds — `LogisticRegression`
is constructed without a `random_state`, so liblinear's internal shuffling
is seeded from the ambient global RNG and two executions of the program
need not exhibit the same solver behaviour (`UnseededLibrary` and `runAt`
make that per-execution dependence explicit).  Every notebook-level
computation (grid construction, mean-score maximisation, the `zip`/`dict`
feature bookkeeping, the exact nonzero selection test, prediction from a
coefficient vector, accuracy and MAE scoring) is embedded concretely.
-/

/-- The 30 feature names of the breast-cancer table, in column order
(`breast_cancer_dataset.feature_names`, printed by the notebook). -/
def featureNames : List String :=
  ["mean radius", "mean texture", "mean perimeter", "mean area",
   "mean smoothness", "mean compactness", "mean concavity",
   "mean concave points", "mean symmetry", "mean fractal dimension",
   "radius error", "texture error", "perimeter error", "area error",
   "smoothness error", "compactness error", "concavity error",
   "concave points error", "symmetry error", "fractal dimension error",
   "worst radius", "worst texture", "worst perimeter", "worst area",
   "worst smoothness", "worst compactness", "worst concavity",
   "worst concave points", "worst symmetry", "worst fractal dimension"]

/-- `data = pd.concat([X, Y], axis=1)`: the 30 feature columns followed by
the label column named `"target"` — 31 column names in all. -/
def dataColumns : List String := featureNames ++ ["target"]

/-- `feature_importance = dict(zip(data.columns, lasso_model.coef_[0]))`:
Python `zip` truncates to the shorter sequence, and the feature names are
pairwise distinct, so the dict is faithfully an association list. -/
def feature_importance (coefs : List ℚ) : List (String × ℚ) :=
  dataColumns.zip coefs

/-- `selected_ = [k for k, v in feature_importance.items() if v != 0]`:
the keys whose value is exactly nonzero, in insertion (column) order. -/
def selected_ (fi : List (String × ℚ)) : List String :=
  (fi.filter (fun p => decide (p.2 ≠ 0))).map Prod.fst

/-- Number of positions at which two label vectors agree (the sum of the
element-wise `==` comparison); truncates at the shorter vector. -/
def matchCount : List ℤ → List ℤ → Nat
  | a :: as, b :: bs => (if a = b then 1 else 0) + matchCount as bs
  | _, _ => 0

/-- `sklearn.metrics.accuracy_score` on 1-d label vectors: the fraction of
positions where the two vectors agree, out of `len(a)` samples (the library
requires the two arguments to have equal length).  `LogisticRegression.score`
computes the same quantity on `(predict(X), y)`. -/
def accuracy_score (a b : List ℤ) : ℚ :=
  (matchCount a b : ℚ) / (a.length : ℚ)

/-- Sum of absolute differences of two integer label vectors. -/
def absErrSum : List ℤ → List ℤ → ℕ
  | a :: as, b :: bs => (a - b).natAbs + absErrSum as bs
  | _, _ => 0

/-- The `"neg_mean_absolute_error"` scorer: minus the mean absolute
difference between true and predicted labels. -/
def neg_mean_absolute_error (yTrue yPred : List ℤ) : ℚ :=
  -((absErrSum yTrue yPred : ℚ) / (yTrue.length : ℚ))

/-- `np.arange(start, stop, step)` over exact rationals:
`⌈(stop - start)/step⌉` evenly spaced values `start + i·step`.  (float64
round-off below `10⁻¹⁵` on the individual grid points is abstracted away;
the element count equals the one of the float computation here.) -/
def arange (start stop step : ℚ) : List ℚ :=
  (List.range (⌈(stop - start) / step⌉).toNat).map (fun i : ℕ => start + (i : ℚ) * step)

/-- `grid = {"C": np.arange(0.01, 1, 0.01)}`: the grid of regularization
strengths handed to `GridSearchCV`. -/
def grid_C : List ℚ := arange 0.01 1 0.01

/-- Mean of a list of fold scores (`mean_test_score`: the scores of all
folds of all repeats averaged with equal weight). -/
def rowMean (r : List ℚ) : ℚ := (r.foldr (· + ·) 0) / (r.length : ℚ)

/-- Index of the first occurrence of the maximum of a list — the selection
rule of `GridSearchCV.best_index_` (ranks with ties sharing the minimal
rank, then `argmin` of the ranks, which lands on the first candidate
attaining the best mean score). -/
def argmaxIdx : List ℚ → Nat
  | [] => 0
  | [_] => 0
  | x :: y :: l =>
    let j := argmaxIdx (y :: l)
    if x < (y :: l).getD j 0 then j + 1 else 0

/-- The grid value selected by the search, given the table of per-fold
scores (one row per grid value, aligned with the grid): the grid entry
whose row mean is best, first occurrence on ties. -/
def bestFromTable (grid : List ℚ) (table : List (List ℚ)) : ℚ :=
  grid.getD (argmaxIdx (table.map rowMean)) 0

/-- A row of the design matrix: one rational per feature column. -/
abbrev Row := List ℚ

/-- Result of one liblinear fit: `coef_[0]` and `intercept_[0]`. -/
structure FitResult where
  coef : List ℚ
  intercept : ℚ

/-- The liblinear solver behind `LogisticRegression(penalty="l1",
solver="liblinear", max_iter=1000).fit`: a deterministic function of the
regularization strength `C` and the training data.  (`penalty`, `solver`
and `max_iter` are fixed at every call site of the notebook, so only `C`
varies.) -/
abbrev Solver := ℚ → List Row → List ℤ → FitResult

/-- Dot product of a coefficient vector with a row. -/
def dot : List ℚ → List ℚ → ℚ
  | a :: as, b :: bs => a * b + dot as bs
  | _, _ => 0

/-- `LogisticRegression.predict` on one row: class 1 when the decision
function `coef·x + intercept` is positive, else class 0. -/
def predictRow (f : FitResult) (x : Row) : ℤ :=
  if 0 < dot f.coef x + f.intercept then 1 else 0

/-- `LogisticRegression.predict` on a design matrix. -/
def predict (f : FitResult) (X : List Row) : List ℤ :=
  X.map (predictRow f)

/-- Rows of `X` at the given positions (pandas positional indexing). -/
def selectRows (X : List Row) (idx : List Nat) : List Row :=
  idx.map (fun i => X.getD i [])

/-- Labels of `Y` at the given positions. -/
def selectLabels (Y : List ℤ) (idx : List Nat) : List ℤ :=
  idx.map (fun i => Y.getD i 0)

/-- One cross-validation fold: positions of the training portion and of the
held-out portion. -/
structure Fold where
  trainIdx : List Nat
  testIdx : List Nat

/-- Score of one grid value on one fold: fit on the fold's training
portion, score `neg_mean_absolute_error` on the fold's held-out portion. -/
def foldScore (fit : Solver) (X : List Row) (Y : List ℤ) (c : ℚ) (f : Fold) : ℚ :=
  let m := fit c (selectRows X f.trainIdx) (selectLabels Y f.trainIdx)
  neg_mean_absolute_error (selectLabels Y f.testIdx) (predict m (selectRows X f.testIdx))

/-- All fold scores of one grid value (one row of `cv_results_`). -/
def cvScoreRow (fit : Solver) (X : List Row) (Y : List ℤ) (folds : List Fold) (c : ℚ) : List ℚ :=
  folds.map (foldScore fit X Y c)

/-- `GridSearchCV(...).fit(...).best_params_["C"]`: the grid value whose
mean fold score is best, first occurrence in grid order on ties. -/
def gridSearchBestC (fit : Solver) (X : List Row) (Y : List ℤ) (folds : List Fold)
    (grid : List ℚ) : ℚ :=
  bestFromTable grid (grid.map (cvScoreRow fit X Y folds))

/-- The train/test partition produced by `train_test_split`. -/
structure SplitData where
  x_train : List Row
  x_test : List Row
  y_train : List ℤ
  y_test : List ℤ

/-- `train_test_split(X, Y, test_size, random_state)`: with the seed's
shuffled order `perm`, the first `⌈test_size·n⌉` positions form the test
partition and the remaining positions the training partition. -/
def train_test_split (X : List Row) (Y : List ℤ) (test_size : ℚ) (perm : List Nat) :
    SplitData :=
  let nTest := (⌈test_size * (X.length : ℚ)⌉).toNat
  let testIdx := perm.take nTest
  let trainIdx := perm.drop nTest
  ⟨selectRows X trainIdx, selectRows X testIdx,
   selectLabels Y trainIdx, selectLabels Y testIdx⟩

/-- Constructor arguments of `sklearn.linear_model.LogisticRegression`;
`C` defaults to `1.0` when the caller does not pass it. -/
structure LogisticRegressionParams where
  C : ℚ := 1
  penalty : String
  solver : String
  max_iter : ℕ

/-- `lasso_model = LogisticRegression(penalty="l1", solver="liblinear",
max_iter=1000)` — the first model instance of the notebook; no `C` argument
is passed, so `C` is the library default `1.0`. -/
def lasso_model : LogisticRegressionParams :=
  { penalty := "l1", solver := "liblinear", max_iter := 1000 }

/-- Position of a feature name among the data columns (`pandas` column
lookup for `x_train[selected_]`). -/
def colIndex (name : String) : Nat := featureNames.indexOf name

/-- `x[names]`: column selection by name on a row-major design matrix. -/
def selectCols (X : List Row) (names : List String) : List Row :=
  X.map (fun r => names.map (fun nm => r.getD (colIndex nm) 0))

/-- The fixed-size labeled dataset (`load_breast_cancer()`): 569 rows of 30
features and one binary label per row. -/
structure Dataset where
  X : List Row
  Y : List ℤ

/-- The library routines as one particular execution of the notebook
exhibits them: `permOf s` is the PRNG shuffle order used by
`train_test_split` for `random_state=s`; `foldsOf s` the fold index lists
of `RepeatedKFold(n_splits=10, n_repeats=3, random_state=s)`; `fit` the
liblinear solver's behaviour during that execution.  `permOf` and `foldsOf`
are determined by their seed arguments, which the source fixes; `fit` is
not: `LogisticRegression` is constructed without a `random_state`, so
liblinear seeds its internal shuffling from the ambient global RNG, and two
executions need not share the same `fit` (see `UnseededLibrary`).  Within
one execution, every solver call of the pipeline has a distinct
`(C, X, y)` argument tuple, so a single function of those arguments
represents the calls of one run exactly. -/
structure LibraryEnv where
  permOf : Nat → List Nat
  foldsOf : Nat → List Fold
  fit : Solver

/-- Everything the notebook reports for one run. -/
structure RunResult where
  split : SplitData
  best_C : ℚ
  fullFit_C : ℚ
  coefs : List ℚ
  selected : List String
  trainAcc : ℚ
  testAcc : ℚ

/-- The whole notebook pipeline, in source order: split with seed 123,
grid-search `C` over `grid_C` with the `RepeatedKFold(10, 3, 321)` folds,
fit `lasso_model` on the full training set (at its constructor `C`, the
default `1.0` — `GridSearchCV` fits internal clones and does not modify
`lasso_model`), build `feature_importance`, select the exactly-nonzero
features, refit at `best_params_["C"]` on the selected columns, and score
accuracy on the selected-column train and test partitions. -/
def runPipeline (lib : LibraryEnv) (d : Dataset) : RunResult :=
  let s := train_test_split d.X d.Y 0.2 (lib.permOf 123)
  let cross_validation := lib.foldsOf 321
  let best := gridSearchBestC lib.fit s.x_train s.y_train cross_validation grid_C
  let fullFit := lib.fit lasso_model.C s.x_train s.y_train
  let fi := feature_importance fullFit.coef
  let sel := selected_ fi
  let x_train_selected := selectCols s.x_train sel
  let x_test_selected := selectCols s.x_test sel
  let refit := lib.fit best x_train_selected s.y_train
  ⟨s, best, lasso_model.C, fullFit.coef, sel,
   accuracy_score (predict refit x_train_selected) s.y_train,
   accuracy_score (predict refit x_test_selected) s.y_test⟩

/-- The run-to-run randomness of the program made explicit: the seeded
routines `permOf` and `foldsOf` are functions of their `random_state`
arguments only, but the liblinear solver additionally depends on the
ambient global RNG state `g` at execution time, because the source leaves
`LogisticRegression`'s `random_state` unset; `fitAt g` is the solver
behaviour an execution starting from global state `g` exhibits. -/
structure UnseededLibrary where
  permOf : Nat → List Nat
  foldsOf : Nat → List Fold
  fitAt : Nat → Solver

/-- One execution of the whole program with ambient global RNG state `g`:
the seeds the source fixes (123 for the split, 321 for the folds) are baked
into `runPipeline`, while the solver behaviour is the one state `g`
induces.  Nothing in the program determines `g`, so two executions run at
possibly different `g`. -/
def runAt (ulib : UnseededLibrary) (g : Nat) (d : Dataset) : RunResult :=
  runPipeline ⟨ulib.permOf, ulib.foldsOf, ulib.fitAt g⟩ d

/-- The coefficient vector `lasso_model.coef_[0]` of the full-feature fit,
as recorded in the notebook's `feature_importance` output cell. -/
def recordedCoefs : List ℚ :=
  [4.3709647723744816, 0.13537840215857122, -0.25790269053419024,
   -0.01583579744291656, 0, 0, 0, 0, 0, 0,
   0, 1.74890982969327, 0, -0.0943892589732414, 0,
   0, 0, 0, 0, 0,
   0, -0.38930985324454537, -0.060549036816239174, -0.014416518854851793, 0,
   0, -3.5930329589942347, 0, 0, 0]

/-- The full-feature-fit coefficient vector recorded in the other notebook
variant (`src/lasso_breast_cancer.ipynb`), produced by an execution with
the same fixed seeds 123/321, grid, and model configuration as the one
behind `recordedCoefs`: the two vectors differ, exhibiting the unseeded
solver's run-to-run variation (that run also selected best C 0.87 where the
other selected 0.9). -/
def recordedCoefsOther : List ℚ :=
  [4.676032476733902, 0.13861617423350192, -0.31260077498069366,
   -0.015187357927418205, 0, 0, 0, 0, 0, 0,
   0, 1.7703818706914807, 0, -0.0941036525398894, 0,
   0, 0, 0, 0, 0,
   0, -0.3944082053909299, -0.054189009992269076, -0.014895905720181025, 0,
   0, -3.388136304067478, 0, 0, 0]

/-- The test-set accuracy printed by the notebook for the documented
seed/grid/split configuration. -/
def reportedTestScore : ℚ := 0.9824561403508771

/-! ## Basic facts about the feature table -/

theorem featureNames_length : featureNames.length = 30 := rfl

theorem featureNames_nodup : featureNames.Nodup := by decide

theorem target_not_mem_featureNames : "target" ∉ featureNames := by decide

/-- With a 30-entry coefficient vector, `zip` drops the trailing `"target"`
column name, leaving the 30 feature names as keys. -/
theorem feature_importance_eq_zip (coefs : List ℚ) (hlen : coefs.length = 30) :
    feature_importance coefs = featureNames.zip coefs := by
  have h : featureNames.length = coefs.length := by rw [hlen]; rfl
  calc feature_importance coefs
      = (featureNames ++ ["target"]).zip (coefs ++ []) := by
        rw [List.append_nil]; rfl
    _ = featureNames.zip coefs ++ (["target"].zip ([] : List ℚ)) := List.zip_append h
    _ = featureNames.zip coefs := by simp

/-- Every selected key is a key of the association list. -/
theorem mem_keys_of_mem_selected {l : List (String × ℚ)} {s : String}
    (h : s ∈ selected_ l) : s ∈ l.map Prod.fst := by
  unfold selected_ at h
  rcases List.mem_map.mp h with ⟨p, hp, he⟩
  exact he ▸ List.mem_map_of_mem Prod.fst (List.mem_of_mem_filter hp)

theorem getD_mem_of_lt {α : Type} (l : List α) (k : Nat) (d : α) (hk : k < l.length) :
    l.getD k d ∈ l := by
  rw [List.getD_eq_getElem l d hk]
  exact List.mem_iff_getElem.mpr ⟨k, hk, rfl⟩

/-- Membership of the `k`-th key in the nonzero-filtered keys is exactly
nonzeroness of the `k`-th value, provided the keys are distinct. -/
theorem mem_selected_zip_iff : ∀ (names : List String) (coefs : List ℚ),
    names.Nodup → names.length = coefs.length → ∀ k, k < names.length →
    (names.getD k "" ∈ selected_ (names.zip coefs) ↔ coefs.getD k 0 ≠ 0)
  | [], _, _, _, k, hk => absurd hk (by simp)
  | x :: xs, [], _, hlen, k, hk => absurd hlen (by simp)
  | x :: xs, c :: cs, hnd, hlen, k, hk => by
    have hx : x ∉ xs := (List.nodup_cons.mp hnd).1
    have hnd' : xs.Nodup := (List.nodup_cons.mp hnd).2
    have hlen' : xs.length = cs.length := by simpa using hlen
    rw [List.zip_cons_cons]
    by_cases hc : c = 0
    · subst hc
      have hfil : selected_ ((x, (0 : ℚ)) :: xs.zip cs) = selected_ (xs.zip cs) := by
        simp [selected_, List.filter_cons]
      rw [hfil]
      cases k with
      | zero =>
        simp only [List.getD_cons_zero]
        constructor
        · intro hmem
          have hxk : x ∈ (xs.zip cs).map Prod.fst := mem_keys_of_mem_selected hmem
          rw [List.map_fst_zip xs cs (le_of_eq hlen')] at hxk
          exact absurd hxk hx
        · intro h0
          exact absurd rfl h0
      | succ k =>
        simp only [List.getD_cons_succ]
        exact mem_selected_zip_iff xs cs hnd' hlen' k (by simpa using hk)
    · have hfil : selected_ ((x, c) :: xs.zip cs) = x :: selected_ (xs.zip cs) := by
        simp [selected_, List.filter_cons, hc]
      rw [hfil]
      cases k with
      | zero =>
        simp only [List.getD_cons_zero]
        simp [hc]
      | succ k =>
        simp only [List.getD_cons_succ]
        have hklt : k < xs.length := by simpa using hk
        have hne : xs.getD k "" ≠ x := by
          intro he
          exact hx (he ▸ getD_mem_of_lt xs k "" hklt)
        rw [List.mem_cons]
        rw [mem_selected_zip_iff xs cs hnd' hlen' k hklt]
        exact or_iff_right hne

/-! ## Facts about `matchCount` and `accuracy_score` -/

theorem matchCount_comm : ∀ (a b : List ℤ), matchCount a b = matchCount b a
  | [], [] => rfl
  | [], _ :: _ => rfl
  | _ :: _, [] => rfl
  | x :: xs, y :: ys => by
    simp only [matchCount, matchCount_comm xs ys, eq_comm]

theorem matchCount_le_length : ∀ (a b : List ℤ), matchCount a b ≤ a.length
  | [], _ => Nat.le_refl 0
  | _ :: _, [] => by simp [matchCount]
  | x :: xs, y :: ys => by
    have ih := matchCount_le_length xs ys
    simp only [matchCount, List.length_cons]
    split <;> omega

theorem accuracy_score_mem_unit (a b : List ℤ) :
    0 ≤ accuracy_score a b ∧ accuracy_score a b ≤ 1 := by
  unfold accuracy_score
  constructor
  · apply div_nonneg <;> positivity
  · rcases Nat.eq_zero_or_pos a.length with h | h
    · rw [h]; simp
    · rw [div_le_one (by exact_mod_cast h)]
      exact_mod_cast matchCount_le_length a b

/-! ## Facts about `argmaxIdx` and the grid -/

theorem argmaxIdx_cons_cons (x y : ℚ) (l : List ℚ) :
    argmaxIdx (x :: y :: l) =
      if x < (y :: l).getD (argmaxIdx (y :: l)) 0 then argmaxIdx (y :: l) + 1 else 0 := rfl

theorem argmaxIdx_lt_length : ∀ (l : List ℚ), l ≠ [] → argmaxIdx l < l.length
  | [], h => absurd rfl h
  | [_], _ => Nat.zero_lt_one
  | x :: y :: l, _ => by
    have ih := argmaxIdx_lt_length (y :: l) (by simp)
    rw [argmaxIdx_cons_cons]
    split
    · simpa using Nat.succ_lt_succ ih
    · simp

theorem getD_le_getD_argmaxIdx : ∀ (l : List ℚ) (k : Nat), k < l.length →
    l.getD k 0 ≤ l.getD (argmaxIdx l) 0
  | [], k, hk => absurd hk (by simp)
  | [x], k, hk => by
    have hk0 : k = 0 := by simpa using hk
    subst hk0
    exact le_refl _
  | x :: y :: l, k, hk => by
    have ih := getD_le_getD_argmaxIdx (y :: l)
    rw [argmaxIdx_cons_cons]
    by_cases h : x < (y :: l).getD (argmaxIdx (y :: l)) 0
    · rw [if_pos h, List.getD_cons_succ]
      cases k with
      | zero => exact le_of_lt h
      | succ k =>
        rw [List.getD_cons_succ]
        exact ih k (by simpa using hk)
    · rw [if_neg h, List.getD_cons_zero]
      cases k with
      | zero => exact le_refl x
      | succ k =>
        rw [List.getD_cons_succ]
        have hky : k < (y :: l).length := by simpa using hk
        exact le_trans (ih k hky) (not_lt.mp h)

theorem getD_lt_of_lt_argmaxIdx : ∀ (l : List ℚ) (k : Nat), k < argmaxIdx l →
    l.getD k 0 < l.getD (argmaxIdx l) 0
  | [], k, hk => absurd hk (by simp [argmaxIdx])
  | [_], k, hk => absurd hk (by simp [argmaxIdx])
  | x :: y :: l, k, hk => by
    have ih := getD_lt_of_lt_argmaxIdx (y :: l)
    rw [argmaxIdx_cons_cons] at hk ⊢
    by_cases h : x < (y :: l).getD (argmaxIdx (y :: l)) 0
    · rw [if_pos h] at hk ⊢
      rw [List.getD_cons_succ]
      cases k with
      | zero => exact h
      | succ k =>
        rw [List.getD_cons_succ]
        exact ih k (Nat.lt_of_succ_lt_succ hk)
    · rw [if_neg h] at hk
      exact absurd hk (Nat.not_lt_zero k)

/-- The `k`-th row mean of the score table is the `k`-th entry of the list
of row means. -/
theorem getD_map_rowMean (table : List (List ℚ)) (k : Nat) (hk : k < table.length) :
    (table.map rowMean).getD k 0 = rowMean (table.getD k []) := by
  have hk' : k < (table.map rowMean).length := by simpa using hk
  rw [List.getD_eq_getElem _ _ hk', List.getD_eq_getElem _ _ hk]
  simp

/-- `grid_C` is exactly the 99 values `0.01, 0.02, …, 0.99`. -/
theorem grid_C_eq : grid_C = (List.range 99).map (fun k : ℕ => ((k : ℚ) + 1) / 100) := by
  unfold grid_C arange
  have harg : ((1 : ℚ) - 0.01) / 0.01 = 99 := by norm_num
  rw [harg]
  have hceil : (⌈(99 : ℚ)⌉).toNat = 99 := by
    rw [show ((99 : ℚ)) = ((99 : ℤ) : ℚ) by norm_num, Int.ceil_intCast]
    rfl
  rw [hceil]
  apply List.map_congr_left
  intro k _
  field_simp
  ring

theorem grid_C_length : grid_C.length = 99 := by
  rw [grid_C_eq, List.length_map, List.length_range]

theorem grid_C_mem_bounds : ∀ c ∈ grid_C, 1/100 ≤ c ∧ c ≤ 99/100 := by
  intro c hc
  rw [grid_C_eq] at hc
  rcases List.mem_map.mp hc with ⟨k, hk, he⟩
  rw [List.mem_range] at hk
  subst he
  have hk0 : (0 : ℚ) ≤ (k : ℚ) := Nat.cast_nonneg k
  have hk98 : (k : ℚ) ≤ 98 := by
    have : k ≤ 98 := by omega
    exact_mod_cast this
  constructor
  · rw [div_le_div_iff_of_pos_right (by norm_num : (0:ℚ) < 100)]
    linarith
  · rw [div_le_div_iff_of_pos_right (by norm_num : (0:ℚ) < 100)]
    linarith

theorem grid_C_getD_le (j : Nat) : grid_C.getD j 0 ≤ 99/100 := by
  by_cases hj : j < grid_C.length
  · exact (grid_C_mem_bounds _ (getD_mem_of_lt grid_C j 0 hj)).2
  · rw [List.getD_eq_default _ _ (le_of_not_lt hj)]
    norm_num

/-- The grid value chosen by the search in any run is at most `0.99` — in
particular never the default `C = 1.0` of the full-feature fit. -/
theorem runPipeline_best_C_le (lib : LibraryEnv) (d : Dataset) :
    (runPipeline lib d).best_C ≤ 99/100 :=
  grid_C_getD_le _

/-! ## Claim theorems -/

/-- Claim C7: the hyperparameter grid handed to the search contains exactly
the 99 regularization-strength values 0.01, 0.02, …, 0.99 — its `k`-th
entry is `(k+1)/100` — and every value the search evaluates lies in the
interval `[0.01, 0.99]`. -/
theorem grid_contains_exactly_99_values :
    grid_C.length = 99 ∧
    grid_C = (List.range 99).map (fun k : ℕ => ((k : ℚ) + 1) / 100) ∧
    ∀ c ∈ grid_C, 1/100 ≤ c ∧ c ≤ 99/100 :=
  ⟨grid_C_length, grid_C_eq, grid_C_mem_bounds⟩

/-- Witness for C7, at the concrete grid member 0.01. -/
theorem grid_contains_exactly_99_values_witness :
    1/100 ≤ (1/100 : ℚ) ∧ (1/100 : ℚ) ≤ 99/100 :=
  grid_contains_exactly_99_values.2.2 (1/100)
    (by rw [grid_C_eq]
        exact List.mem_map.mpr ⟨0, List.mem_range.mpr (by norm_num), by norm_num⟩)

/-- Claim C3: for every grid and every aligned table of per-fold scores,
the search returns the grid value whose score averaged over all folds and
repeats is highest, and on ties the first such value in grid iteration
order: the returned value sits at an index whose row mean is at least every
row mean and strictly exceeds the row means at all earlier indices. -/
theorem gridSearch_returns_first_best_mean (grid : List ℚ) (table : List (List ℚ))
    (hlen : table.length = grid.length) (hne : grid ≠ []) :
    ∃ i, i < grid.length ∧ bestFromTable grid table = grid.getD i 0 ∧
      (∀ k, k < grid.length → rowMean (table.getD k []) ≤ rowMean (table.getD i [])) ∧
      (∀ k, k < i → rowMean (table.getD k []) < rowMean (table.getD i [])) := by
  have hgpos : 0 < grid.length := List.length_pos.mpr hne
  have htpos : 0 < table.length := by rw [hlen]; exact hgpos
  have htne : table.map rowMean ≠ [] := by
    intro h
    rw [List.map_eq_nil_iff] at h
    subst h
    simp at htpos
  have hmlen : (table.map rowMean).length = table.length := List.length_map _ _
  have hilt : argmaxIdx (table.map rowMean) < table.length := by
    have h := argmaxIdx_lt_length _ htne
    rwa [hmlen] at h
  refine ⟨argmaxIdx (table.map rowMean), ?_, rfl, ?_, ?_⟩
  · rw [← hlen]; exact hilt
  · intro k hk
    have hkt : k < table.length := by rw [hlen]; exact hk
    have h1 := getD_le_getD_argmaxIdx (table.map rowMean) k (by rw [hmlen]; exact hkt)
    rwa [getD_map_rowMean table k hkt, getD_map_rowMean table _ hilt] at h1
  · intro k hk
    have hkt : k < table.length := lt_trans hk hilt
    have h1 := getD_lt_of_lt_argmaxIdx (table.map rowMean) k hk
    rwa [getD_map_rowMean table k hkt, getD_map_rowMean table _ hilt] at h1

/-- Witness for C3, on a concrete two-value grid and score table. -/
theorem gridSearch_returns_first_best_mean_witness :
    ∃ i, i < ([1/2, 9/10] : List ℚ).length ∧
      bestFromTable [1/2, 9/10] [[0], [-1]] = ([1/2, 9/10] : List ℚ).getD i 0 ∧
      (∀ k, k < ([1/2, 9/10] : List ℚ).length →
        rowMean (([[0], [-1]] : List (List ℚ)).getD k []) ≤
          rowMean (([[0], [-1]] : List (List ℚ)).getD i [])) ∧
      (∀ k, k < i →
        rowMean (([[0], [-1]] : List (List ℚ)).getD k []) <
          rowMean (([[0], [-1]] : List (List ℚ)).getD i [])) :=
  gridSearch_returns_first_best_mean [1/2, 9/10] [[0], [-1]] rfl (by simp)

/-- Claim C2: for every 30-entry fitted coefficient vector, the `k`-th
feature is selected iff its coefficient differs from zero under exact
comparison — coefficient exactly 0 excludes the feature, any other value
includes it; no tolerance threshold is involved. -/
theorem selected_iff_coef_nonzero (coefs : List ℚ) (hlen : coefs.length = 30)
    (k : Nat) (hk : k < 30) :
    featureNames.getD k "" ∈ selected_ (feature_importance coefs) ↔
      coefs.getD k 0 ≠ 0 := by
  rw [feature_importance_eq_zip coefs hlen]
  exact mem_selected_zip_iff featureNames coefs featureNames_nodup
    (by rw [featureNames_length, hlen]) k (by rw [featureNames_length]; exact hk)

/-- Witness for C2, at the recorded coefficient vector and feature 0. -/
theorem selected_iff_coef_nonzero_witness :
    featureNames.getD 0 "" ∈ selected_ (feature_importance recordedCoefs) ↔
      recordedCoefs.getD 0 0 ≠ 0 :=
  selected_iff_coef_nonzero recordedCoefs rfl 0 (by norm_num)

/-- Claim C9: with a 30-entry coefficient vector, `zip` truncation drops
the trailing `"target"` column name: `feature_importance` has exactly the
30 feature names as keys, in order; `"target"` is never a key and can
therefore never be selected as a feature. -/
theorem feature_importance_drops_target (coefs : List ℚ) (hlen : coefs.length = 30) :
    (feature_importance coefs).map Prod.fst = featureNames ∧
    (feature_importance coefs).length = 30 ∧
    "target" ∉ (feature_importance coefs).map Prod.fst ∧
    "target" ∉ selected_ (feature_importance coefs) := by
  have hkeys : (feature_importance coefs).map Prod.fst = featureNames := by
    rw [feature_importance_eq_zip coefs hlen]
    exact List.map_fst_zip featureNames coefs (by rw [featureNames_length, hlen])
  refine ⟨hkeys, ?_, ?_, ?_⟩
  · have h := congrArg List.length hkeys
    rwa [List.length_map, featureNames_length] at h
  · rw [hkeys]; exact target_not_mem_featureNames
  · intro hmem
    exact target_not_mem_featureNames (hkeys ▸ mem_keys_of_mem_selected hmem)

/-- Witness for C9, at the recorded coefficient vector. -/
theorem feature_importance_drops_target_witness :
    (feature_importance recordedCoefs).map Prod.fst = featureNames ∧
    (feature_importance recordedCoefs).length = 30 ∧
    "target" ∉ (feature_importance recordedCoefs).map Prod.fst ∧
    "target" ∉ selected_ (feature_importance recordedCoefs) :=
  feature_importance_drops_target recordedCoefs rfl

/-- Claim C6: on the recorded full-feature coefficient vector, the
exact-nonzero test selects precisely the 10 features the notebook prints —
a strict subset of the 30 features, every selected name being a feature
name, with at least one coefficient (for example the fifth, of
`"mean smoothness"`) exactly zero. -/
theorem selected_strict_subset_of_features :
    selected_ (feature_importance recordedCoefs) =
      ["mean radius", "mean texture", "mean perimeter", "mean area",
       "texture error", "area error", "worst texture", "worst perimeter",
       "worst area", "worst concavity"] ∧
    (selected_ (feature_importance recordedCoefs)).length < 30 ∧
    (∀ f ∈ selected_ (feature_importance recordedCoefs), f ∈ featureNames) ∧
    recordedCoefs.getD 4 0 = 0 ∧ recordedCoefs.length = 30 := by
  have heq : selected_ (feature_importance recordedCoefs) =
      ["mean radius", "mean texture", "mean perimeter", "mean area",
       "texture error", "area error", "worst texture", "worst perimeter",
       "worst area", "worst concavity"] := by
    rw [feature_importance_eq_zip recordedCoefs rfl]
    norm_num [selected_, featureNames, recordedCoefs, List.zip, List.zipWith, List.filter]
  refine ⟨heq, ?_, ?_, rfl, rfl⟩
  · rw [heq]; decide
  · rw [heq]; decide

/-- Claim C8: every accuracy value lies in `[0, 1]`; the reported test
score `0.9824561403508771` lies strictly between `111/114` and `113/114`
and within double-precision distance of `112/114`; and every 114-sample
accuracy value in that window is exactly 112 correct predictions out of
114, with exact value `112/114`. -/
theorem accuracy_in_unit_interval_and_test_112_of_114 :
    (∀ a b : List ℤ, 0 ≤ accuracy_score a b ∧ accuracy_score a b ≤ 1) ∧
    (111/114 < reportedTestScore ∧ reportedTestScore < 113/114 ∧
      |reportedTestScore - 112/114| < 1/10^15) ∧
    (∀ a b : List ℤ, a.length = 114 →
      111/114 < accuracy_score a b → accuracy_score a b < 113/114 →
      matchCount a b = 112 ∧ accuracy_score a b = 112/114) := by
  refine ⟨accuracy_score_mem_unit, ⟨?_, ?_, ?_⟩, ?_⟩
  · unfold reportedTestScore; norm_num
  · unfold reportedTestScore; norm_num
  · unfold reportedTestScore
    rw [abs_sub_lt_iff]
    constructor <;> norm_num
  · intro a b hlen h1 h2
    have hacc : accuracy_score a b = (matchCount a b : ℚ) / 114 := by
      unfold accuracy_score
      rw [hlen]
      norm_num
    rw [hacc] at h1 h2
    rw [div_lt_div_iff_of_pos_right (by norm_num : (0:ℚ) < 114)] at h1 h2
    have hm1 : 111 < matchCount a b := by exact_mod_cast h1
    have hm2 : matchCount a b < 113 := by exact_mod_cast h2
    have hm : matchCount a b = 112 := by omega
    exact ⟨hm, by rw [hacc, hm]; norm_num⟩

/-- A 114-sample truth vector for the C8 witness. -/
def witsA : List ℤ := List.replicate 114 0

/-- A 114-sample prediction vector agreeing with `witsA` at 112 places. -/
def witsB : List ℤ := List.replicate 112 0 ++ [1, 1]

/-- Witness for C8: concrete vectors with 112 of 114 agreements. -/
theorem accuracy_test_112_of_114_witness :
    (0 ≤ accuracy_score [0] [1] ∧ accuracy_score [0] [1] ≤ 1) ∧
    (matchCount witsA witsB = 112 ∧ accuracy_score witsA witsB = 112/114) := by
  constructor
  · exact accuracy_in_unit_interval_and_test_112_of_114.1 [0] [1]
  · apply accuracy_in_unit_interval_and_test_112_of_114.2.2 witsA witsB
    · rfl
    · have hm : matchCount witsA witsB = 112 := by decide
      have hl : witsA.length = 114 := rfl
      unfold accuracy_score
      rw [hm, hl]
      norm_num
    · have hm : matchCount witsA witsB = 112 := by decide
      have hl : witsA.length = 114 := rfl
      unfold accuracy_score
      rw [hm, hl]
      norm_num

/-- Claim C10: accuracy is symmetric in its two arguments for equal-length
label vectors, so the notebook calls that pass predictions first and true
labels second report the same value as the conventional argument order. -/
theorem accuracy_score_comm (a b : List ℤ) (hlen : a.length = b.length) :
    accuracy_score a b = accuracy_score b a := by
  unfold accuracy_score
  rw [matchCount_comm, hlen]

/-- Witness for C10, on concrete label vectors. -/
theorem accuracy_score_comm_witness :
    accuracy_score [0, 1, 1] [1, 1, 0] = accuracy_score [1, 1, 0] [0, 1, 1] :=
  accuracy_score_comm [0, 1, 1] [1, 1, 0] rfl

/-- Claim C4: the evaluator computes accuracy — the fraction of correct
label predictions — on both the training subset and the held-out test
subset, each restricted to the selected feature columns; in particular a
training accuracy is produced, not only a test accuracy. -/
theorem evaluator_reports_train_and_test_accuracy (lib : LibraryEnv) (d : Dataset) :
    (runPipeline lib d).trainAcc =
      accuracy_score
        (predict (lib.fit (runPipeline lib d).best_C
            (selectCols (runPipeline lib d).split.x_train (runPipeline lib d).selected)
            (runPipeline lib d).split.y_train)
          (selectCols (runPipeline lib d).split.x_train (runPipeline lib d).selected))
        (runPipeline lib d).split.y_train ∧
    (runPipeline lib d).testAcc =
      accuracy_score
        (predict (lib.fit (runPipeline lib d).best_C
            (selectCols (runPipeline lib d).split.x_train (runPipeline lib d).selected)
            (runPipeline lib d).split.y_train)
          (selectCols (runPipeline lib d).split.x_test (runPipeline lib d).selected))
        (runPipeline lib d).split.y_test :=
  ⟨rfl, rfl⟩

/-- A small concrete dataset for closed instances of the run. -/
def d₀ : Dataset := ⟨[[1], [0], [1], [0], [1]], [1, 0, 1, 0, 1]⟩

/-- A small concrete library environment: identity shuffle, one fold, and a
solver returning the regularization strength as sole coefficient. -/
def lib₀ : LibraryEnv :=
  ⟨fun _ => [0, 1, 2, 3, 4], fun _ => [⟨[1, 2, 3], [4]⟩], fun c _ _ => ⟨[c], 0⟩⟩

/-- A small concrete unseeded library: identity shuffle, one fold, and a
solver whose full-fit coefficient vector depends on the ambient global RNG
state, as liblinear's does across executions. -/
def ulib₀ : UnseededLibrary :=
  ⟨fun _ => [0, 1, 2, 3, 4], fun _ => [⟨[1, 2, 3], [4]⟩],
   fun g _ _ _ => ⟨List.replicate g 0, 0⟩⟩

/-- Counterexample to claim C5: two executions of the whole pipeline on the
same dataset with the same fixed seeds (123 and 321 are baked into
`runPipeline`) but different ambient global RNG states — which the source
never fixes, `LogisticRegression` having no `random_state` — produce
different coefficient vectors; and the repository's own two recorded
executions with identical seeds, grid, and configuration likewise disagree
on the full-fit coefficients (as they do on best C, 0.9 versus 0.87). -/
theorem pipeline_same_seeds_not_reproducible :
    ¬ (runAt ulib₀ 0 d₀).coefs = (runAt ulib₀ 1 d₀).coefs ∧
    ¬ recordedCoefs = recordedCoefsOther := by
  constructor
  · intro h
    have h2 : ([] : List ℚ) = [(0 : ℚ)] := h
    simp at h2
  · intro h
    have h2 : (4.3709647723744816 : ℚ) = 4.676032476733902 :=
      congrArg (fun l : List ℚ => l.getD 0 0) h
    norm_num at h2

/-- Claim C5 amended: with the seeds the source does fix (123 for the
split, 321 for the folds), the train/test partition is identical across
executions regardless of the ambient global RNG state; the selected
regularization strength, coefficient vector and accuracy values are
identical only under the additional hypothesis that the unseeded liblinear
solver behaves the same in both executions — which the program does not
guarantee, `LogisticRegression`'s `random_state` being unset. -/
theorem pipeline_split_deterministic_rest_solver_conditional
    (ulib : UnseededLibrary) (g₁ g₂ : Nat) (d : Dataset) :
    (runAt ulib g₁ d).split = (runAt ulib g₂ d).split ∧
    (ulib.fitAt g₁ = ulib.fitAt g₂ →
      (runAt ulib g₁ d).best_C = (runAt ulib g₂ d).best_C ∧
      (runAt ulib g₁ d).coefs = (runAt ulib g₂ d).coefs ∧
      (runAt ulib g₁ d).trainAcc = (runAt ulib g₂ d).trainAcc ∧
      (runAt ulib g₁ d).testAcc = (runAt ulib g₂ d).testAcc) := by
  constructor
  · rfl
  · intro hfit
    unfold runAt
    rw [hfit]
    exact ⟨rfl, rfl, rfl, rfl⟩

/-- Witness for the amended C5, discharging the equal-solver hypothesis at
a concrete environment with both executions at global state 0. -/
theorem pipeline_split_deterministic_witness :
    (runAt ulib₀ 0 d₀).split = (runAt ulib₀ 0 d₀).split ∧
    ((runAt ulib₀ 0 d₀).best_C = (runAt ulib₀ 0 d₀).best_C ∧
     (runAt ulib₀ 0 d₀).coefs = (runAt ulib₀ 0 d₀).coefs ∧
     (runAt ulib₀ 0 d₀).trainAcc = (runAt ulib₀ 0 d₀).trainAcc ∧
     (runAt ulib₀ 0 d₀).testAcc = (runAt ulib₀ 0 d₀).testAcc) :=
  ⟨(pipeline_split_deterministic_rest_solver_conditional ulib₀ 0 0 d₀).1,
   (pipeline_split_deterministic_rest_solver_conditional ulib₀ 0 0 d₀).2 rfl⟩

/-- Counterexample to claim C1: in the concrete run on `lib₀`/`d₀`, the `C`
of the classifier fitted on the full training set — whose `coef_` vector is
read into `feature_importance` — is the constructor default `1.0`, while
`best_params_["C"]` is a grid value of at most `0.99`, so the two are not
equal, contradicting the claim. -/
theorem fullFit_C_eq_best_C_counterexample :
    ¬ (runPipeline lib₀ d₀).fullFit_C = (runPipeline lib₀ d₀).best_C := by
  intro h
  have h1 : (runPipeline lib₀ d₀).fullFit_C = 1 := rfl
  have h2 := runPipeline_best_C_le lib₀ d₀
  rw [← h, h1] at h2
  norm_num at h2

/-- Claim C1 amended: the full-feature fit whose coefficients drive feature
selection runs at the `LogisticRegression` constructor default `C = 1.0` —
`GridSearchCV` fits internal clones and leaves `lasso_model` untouched —
while `results.best_params_["C"]` is a grid value of at most `0.99`; the
two therefore differ in every run, and the selected strength is applied
only to the later refit on the selected feature columns. -/
theorem fullFit_C_is_default_not_best (lib : LibraryEnv) (d : Dataset) :
    (runPipeline lib d).fullFit_C = lasso_model.C ∧
    lasso_model.C = 1 ∧
    (runPipeline lib d).best_C ≤ 99/100 ∧
    (runPipeline lib d).fullFit_C ≠ (runPipeline lib d).best_C := by
  refine ⟨rfl, rfl, runPipeline_best_C_le lib d, ?_⟩
  intro h
  have h1 : (runPipeline lib d).fullFit_C = 1 := rfl
  have h2 := runPipeline_best_C_le lib d
  rw [← h, h1] at h2
  norm_num at h2
